import Mathlib

set_option maxRecDepth 10000

/-!
Verification development for the `wp-bot` repository (`src/main.py`).

The single class `WhatsAppBot` is embedded shallowly:

* the three in-memory stores (`processed_messages`, `history`, `last_reply`)
  become an explicit `BotState`;
* outbound side effects (sending a message, deleting a notification,
  persisting a lead record, listing clients, calling the language model)
  become an explicit `Effect` trace returned next to the new state;
* the external collaborators (HTTP send success, lead-file write success,
  the OpenAI completion) are parameterised by an `Env` oracle: `llm = none`
  models the `except` path of `get_openai_response`, `some raw` the
  successful completion text.

Python string operations are modelled by executable list-based functions:
`str.strip()` is `pyStrip` (whitespace = space, tab, newline, carriage
return), `str.lower()` is `pyLower` (ASCII and Cyrillic letters, the only
alphabets occurring in the constants of the program), `needle in s` is
`containsSub`, `s.split('\n')` is `pySplitChar`, `s.split(':', 1)[1]` is
`afterFirstColon`, `s.split(':', 1)[-1]` is `afterColonOrSelf`,
`s.startswith(p)` is `pyStartsWith`, `s.replace("!", "")` is `removeBangs`,
and `hist[-n:]` is `lastN n`.
-/

namespace WABot

/-- One chat turn, mirroring the `{"role": ..., "content": ...}` dicts that
`main.py` appends to `self.history[chat_id]`. -/
structure Msg where
  role : String
  content : String
deriving DecidableEq

/-- The dict produced by `extract_client_info`: a field is `none` when the
corresponding key is absent. -/
structure ClientInfo where
  name : Option String
  company : Option String
  phone : Option String
  bot_type : Option String
deriving DecidableEq

/-- `body['messageData']['textMessageData']` (only the `textMessage` key is
read; `.get('textMessage', '')` justifies a plain `String`). -/
structure TextMessageData where
  textMessage : String
deriving DecidableEq

/-- `body['messageData']`; `idMessage` is read with `.get` and may be absent. -/
structure MessageData where
  textMessageData : Option TextMessageData
  idMessage : Option String
deriving DecidableEq

/-- `body['senderData']`; both keys are read with `.get(..., '')`. -/
structure SenderData where
  chatId : String
  sender : String
deriving DecidableEq

/-- `notification['body']`.  `typeWebhook` is read with `.get` and compared to
a string; a missing key behaves like a non-matching string, so a plain
`String` field (empty when absent) is an equivalent model. -/
structure NotifBody where
  typeWebhook : String
  messageData : Option MessageData
  senderData : Option SenderData
deriving DecidableEq

/-- One Green-API notification.  `receiptId` is tested for truthiness
(`if receipt_id:`), so `none` and `some 0` are both falsy. -/
structure Notification where
  receiptId : Option Int
  body : Option NotifBody
deriving DecidableEq

/-- The three in-memory stores of `WhatsAppBot.__init__`:
`processed_messages` (a set, modelled as a duplicate-free-by-insertion list),
`history` (dict chat_id -> list of turns) and `last_reply`
(dict chat_id -> last sent text), dicts modelled as association lists. -/
structure BotState where
  processed_messages : List String
  history : List (String × List Msg)
  last_reply : List (String × String)
deriving DecidableEq

/-- Observable side effects of one processing step, in program order. -/
inductive Effect where
  | send (chatId message : String)
  | deleteNotif (receiptId : Int)
  | saveClient (phone : String) (info : ClientInfo)
  | listClients (chatId : String)
  | llmCall (chatId : String)
deriving DecidableEq

/-- Outcomes of the external collaborators during one processing step:
`saveOk` is the boolean returned by `save_client_data`, `llm` is the OpenAI
call (`none` = any exception / failure, `some raw` = the completion text). -/
structure Env where
  sendOk : Bool
  saveOk : Bool
  llm : Option String
deriving DecidableEq

/-- Python `dict.get(k)` on an association list. -/
def lookupAssoc {α : Type} (l : List (String × α)) (k : String) : Option α :=
  (l.find? (fun p => p.1 == k)).map (fun p => p.2)

/-- Python `d[k] = v`. -/
def setAssoc {α : Type} (l : List (String × α)) (k : String) (v : α) :
    List (String × α) :=
  match l with
  | [] => [(k, v)]
  | p :: rest => if p.1 == k then (k, v) :: rest else p :: setAssoc rest k v

/-- Python `del d[k]` guarded by `if k in d` (a no-op when absent). -/
def delAssoc {α : Type} (l : List (String × α)) (k : String) :
    List (String × α) :=
  l.filter (fun p => p.1 != k)

/-- Python `set.add`. -/
def addToSet (m : String) (l : List String) : List String :=
  if l.contains m then l else m :: l

/-- Python truthiness of an optional string (`if message_id:`). -/
def optStrTruthy : Option String → Bool
  | none => false
  | some s => s != ""

/-- Python truthiness of an optional integer (`if receipt_id:`). -/
def optIntTruthy : Option Int → Bool
  | none => false
  | some r => r != 0

/-- Python `str.lower()` restricted to the alphabets used by the program:
ASCII `A`-`Z` and Cyrillic `А`-`Я` map down by 32 code points, `Ё` maps to
`ё`; every other character is fixed. -/
def pyLowerChar (c : Char) : Char :=
  if 'A' ≤ c ∧ c ≤ 'Z' then Char.ofNat (c.toNat + 32)
  else if 'А' ≤ c ∧ c ≤ 'Я' then Char.ofNat (c.toNat + 32)
  else if c = 'Ё' then 'ё'
  else c

/-- Python `str.lower()` on a whole string. -/
def pyLower (s : String) : String :=
  String.mk (s.toList.map pyLowerChar)

/-- Substring test on character lists (`needle in haystack` in Python). -/
def subList (n : List Char) : List Char → Bool
  | [] => n.isEmpty
  | c :: t => n.isPrefixOf (c :: t) || subList n t

/-- Python `needle in hay` for strings. -/
def containsSub (needle hay : String) : Bool :=
  subList needle.toList hay.toList

/-- Python `t.replace("!", "")`: removes every exclamation mark. -/
def removeBangs (s : String) : String :=
  String.mk (s.toList.filter (fun c => c != '!'))

/-- Python's whitespace test for `str.strip()` (the characters that occur in
this program's data). -/
def isPySpace (c : Char) : Bool :=
  c == ' ' || c == '\t' || c == '\n' || c == '\r'

/-- Python `str.strip()`: removes leading and trailing whitespace. -/
def pyStrip (s : String) : String :=
  String.mk (((s.toList.dropWhile isPySpace).reverse.dropWhile isPySpace).reverse)

/-- Python `s.startswith(pre)`. -/
def pyStartsWith (s pre : String) : Bool :=
  pre.toList.isPrefixOf s.toList

/-- Helper for `pySplitChar`: splits a character list at every separator. -/
def splitCharAux (sep : Char) : List Char → List Char → List (List Char)
  | [], acc => [acc.reverse]
  | c :: rest, acc =>
    if c == sep then acc.reverse :: splitCharAux sep rest []
    else splitCharAux sep rest (c :: acc)

/-- Python `s.split(sep)` for a one-character separator. -/
def pySplitChar (sep : Char) (s : String) : List String :=
  (splitCharAux sep s.toList []).map String.mk

/-- Python `line.split(':', 1)[1]` (the part after the first colon; only
evaluated on lines that do contain a colon). -/
def afterFirstColon (s : String) : String :=
  String.mk ((s.toList.dropWhile (fun c => c != ':')).drop 1)

/-- Python `text.split(':', 1)[-1]`: the part after the first colon, or the
whole string when there is no colon. -/
def afterColonOrSelf (s : String) : String :=
  if s.toList.contains ':' then afterFirstColon s else s

/-- Python `l[-n:]` for `n > 0`. -/
def lastN {α : Type} (n : Nat) (l : List α) : List α :=
  l.drop (l.length - n)

/-- `WhatsAppBot.clear_chat_history`: drops the chat's history entry and its
last-reply cache entry (each deletion guarded by membership, hence a no-op
when absent).  `processed_messages` is untouched. -/
def clear_chat_history (s : BotState) (chat_id : String) : BotState :=
  { s with history := delAssoc s.history chat_id,
           last_reply := delAssoc s.last_reply chat_id }

/-- `WhatsAppBot.send_unique`: suppresses the physical send when the trimmed
candidate equals the trimmed cached last reply (`dict.get(chat_id, "")`, so a
missing cache entry compares as the empty string) and reports `True`;
otherwise attempts the send (`sendOk` is the transport outcome of
`send_message`) and caches the raw message only on success. -/
def send_unique (sendOk : Bool) (s : BotState) (chat_id message : String) :
    Bool × BotState × List Effect :=
  if pyStrip ((lookupAssoc s.last_reply chat_id).getD "") = pyStrip message then
    (true, s, [])
  else
    (sendOk,
     if sendOk then { s with last_reply := setAssoc s.last_reply chat_id message }
     else s,
     [Effect.send chat_id message])

/-- The literal fallback string returned by `get_openai_response` on any
exception. -/
def fallback_text : String :=
  "Простите, произошёл технический сбой. Попробуйте ещё раз через минуту 🙏"

/-- `WhatsAppBot.get_openai_response`.  `setdefault` inserts the (mutated in
place) list, so even the failure path stores the appended user turn; only the
success path appends the assistant turn and re-truncates to the last 24
entries.  The 12-turn window and the prompt text only feed the model call,
abstracted as the `llmCall` effect with outcome `llm`. -/
def get_openai_response (llm : Option String) (s : BotState)
    (chat_id user_message : String) : String × BotState × List Effect :=
  let hist := (lookupAssoc s.history chat_id).getD []
  let hist1 := hist ++ [⟨"user", user_message⟩]
  match llm with
  | some raw =>
    let answer := pyStrip raw
    let hist2 := hist1 ++ [⟨"assistant", answer⟩]
    (answer,
     { s with history := setAssoc s.history chat_id (lastN 24 hist2) },
     [Effect.llmCall chat_id])
  | none =>
    (fallback_text,
     { s with history := setAssoc s.history chat_id hist1 },
     [Effect.llmCall chat_id])

/-- The greeting set of `route_intent`. -/
def hello_set : List String :=
  ["привет", "здравствуйте", "салам", "hi", "hello", "добрый день", "добрый вечер"]

/-- The fixed greeting+menu reply of `route_intent`. -/
def greeting_reply : String :=
  "Привет! Я помогу с ботами и автоматизацией. Расскажу, что умею, или сразу запишу на бесплатную консультацию. Что удобнее? 🙂"

/-- The booking keywords of `route_intent`. -/
def booking_keywords : List String :=
  ["записаться", "консультац", "созвон", "перезвон", "запишите меня", "appointment"]

/-- The fixed intake-form reply of `route_intent` (two adjacent Python string
literals, concatenated). -/
def form_reply : String :=
  "Отлично! Запишу вас на бесплатную консультацию. Заполните, пожалуйста, кратко:\nИмя: \nКомпания: \nТелефон: \nЗадача (что автоматизировать): "

/-- `WhatsAppBot.route_intent`: `t = text.lower().strip()`; greeting when `t`
is in the set directly or after removing all `!`; otherwise the intake form
when any booking keyword occurs as a substring; otherwise `None`.
(`text or ""` only matters for `None` input, which cannot reach this point.) -/
def route_intent (text : String) : Option String :=
  let t := pyStrip (pyLower text)
  if hello_set.contains t || hello_set.contains (removeBangs t) then
    some greeting_reply
  else if booking_keywords.any (fun kw => containsSub kw t) then
    some form_reply
  else
    none

/-- One iteration of the line loop of `extract_client_info`: strips the line,
lowercases it, and assigns the remainder after the first colon to the first
matching field (an `elif` chain; later lines overwrite earlier ones). -/
def extractLine (info : ClientInfo) (raw_line : String) : ClientInfo :=
  let line := pyStrip raw_line
  let low := pyLower line
  if containsSub "имя:" low || containsSub "name:" low then
    { info with name := some (pyStrip (afterFirstColon line)) }
  else if containsSub "компания:" low || containsSub "company:" low then
    { info with company := some (pyStrip (afterFirstColon line)) }
  else if containsSub "телефон:" low || containsSub "phone:" low then
    { info with phone := some (pyStrip (afterFirstColon line)) }
  else if containsSub "нужен бот для:" low || containsSub "бот для:" low then
    { info with bot_type := some (pyStrip (afterFirstColon line)) }
  else
    info

/-- `WhatsAppBot.extract_client_info`: folds `extractLine` over
`text.split('\n')`, starting from the empty dict. -/
def extract_client_info (text : String) : ClientInfo :=
  (pySplitChar (Char.ofNat 10) text).foldl extractLine ⟨none, none, none, none⟩

/-- The free-text task fallback in `process_message`: Python guards with
`'задача' not in client_info and 'бот для' in message_text.lower()`; the
extractor only ever creates the keys name/company/phone/bot_type, so the
first conjunct is always true and is omitted here. -/
def clientInfoWithTask (text : String) : ClientInfo :=
  let ci := extract_client_info text
  if containsSub "бот для" (pyLower text) then
    { ci with bot_type := some (pyStrip (afterColonOrSelf text)) }
  else
    ci

/-- Python falsiness of `client_info.get(k)`: absent key or empty string. -/
def fieldMissing : Option String → Bool
  | none => true
  | some v => v == ""

/-- The `need` list of `process_message`, in source order. -/
def needList (ci : ClientInfo) : List String :=
  (if fieldMissing ci.name then ["Имя"] else [])
    ++ (if fieldMissing ci.company then ["Компания"] else [])
    ++ (if fieldMissing ci.phone then ["Телефон"] else [])
    ++ (if fieldMissing ci.bot_type then ["Задача"] else [])

/-- The consolidated follow-up message (`ask` in `process_message`). -/
def ask_text (need : List String) : String :=
  "Почти всё! Не хватает: " ++ String.intercalate ", " need
    ++ ".\nПришлите одним сообщением в формате:\nИмя: ...\nКомпания: ...\nТелефон: ...\nЗадача: ..."

/-- Python f-string interpolation of `client_info.get(k)` (prints `None` for
an absent key). -/
def pyShow : Option String → String
  | none => "None"
  | some v => v

/-- The confirmation message (`resp` in `process_message`). -/
def confirm_text (ci : ClientInfo) : String :=
  "✅ Записал вас на бесплатную консультацию!\n\n👤 Имя: " ++ pyShow ci.name
    ++ "\n🏢 Компания: " ++ pyShow ci.company
    ++ "\n📱 Телефон: " ++ pyShow ci.phone
    ++ "\n🧩 Задача: " ++ pyShow ci.bot_type
    ++ "\n\nСвяжемся в ближайшее время. Предпочтительнее звонок или WhatsApp? 🙂"

/-- The slot-filling trigger of `process_message`: any of the label markers
occurs in the lowercased text. -/
def slot_trigger (text : String) : Bool :=
  ["имя:", "компания:", "телефон:", "name:", "company:", "phone:", "задач"].any
    (fun k => containsSub k (pyLower text))

/-- The static admin allow-list. -/
def admin_numbers : List String := ["+77776463138", "77776463138"]

/-- The guarded acknowledgement (`if receipt_id: self.delete_notification(receipt_id)`). -/
def ackIf (receipt : Option Int) : List Effect :=
  if optIntTruthy receipt then [Effect.deleteNotif (receipt.getD 0)] else []

/-- The guarded `self.processed_messages.add(message_id)`
(`if message_id:` first). -/
def markProcessed (s : BotState) (mid : Option String) : BotState :=
  if optStrTruthy mid then
    { s with processed_messages := addToSet (mid.getD "") s.processed_messages }
  else
    s

/-- `WhatsAppBot.process_message`.  Every collaborator call inside the Python
`try` block catches its own exceptions and returns a value, so the body is
total and the outer `except` handler is unreachable; the embedding is the
`try` body.  `handle_clients_command` (which only reads the lead file and
sends) is abstracted as the single `listClients` effect. -/
def process_message (env : Env) (s : BotState) (notif : Option Notification) :
    BotState × List Effect :=
  match notif with
  | none => (s, [])
  | some n =>
    let receipt := n.receiptId
    match n.body with
    | none => (s, [])
    | some body =>
      if body.typeWebhook ≠ "incomingMessageReceived" then (s, ackIf receipt)
      else
        let md := body.messageData.getD ⟨none, none⟩
        match md.textMessageData with
        | none => (s, ackIf receipt)
        | some tmd =>
          let message_text := tmd.textMessage
          let sd := body.senderData.getD ⟨"", ""⟩
          let chat_id := sd.chatId
          let phone := sd.sender
          if message_text = "" ∨ chat_id = "" then (s, ackIf receipt)
          else
            let message_id := md.idMessage
            if optStrTruthy message_id
                && s.processed_messages.contains (message_id.getD "") then
              (s, ackIf receipt)
            else if pyStartsWith (pyStrip message_text) "/clients" then
              if admin_numbers.contains phone then
                (markProcessed s message_id,
                 Effect.listClients chat_id :: ackIf receipt)
              else
                (markProcessed s message_id,
                 Effect.send chat_id "У вас нет доступа к этой команде" :: ackIf receipt)
            else if slot_trigger message_text then
              let ci := clientInfoWithTask message_text
              let need := needList ci
              if need ≠ [] then
                (markProcessed s message_id,
                 Effect.send chat_id (ask_text need) :: ackIf receipt)
              else if env.saveOk then
                (markProcessed s message_id,
                 Effect.saveClient phone ci
                   :: Effect.send chat_id (confirm_text ci) :: ackIf receipt)
              else
                (markProcessed s message_id,
                 Effect.saveClient phone ci :: ackIf receipt)
            else if pyStrip message_text = "/reset" then
              if admin_numbers.contains phone then
                (markProcessed (clear_chat_history s chat_id) message_id,
                 Effect.send chat_id "✅ История чата очищена" :: ackIf receipt)
              else
                (markProcessed s message_id, ackIf receipt)
            else
              match route_intent message_text with
              | some quick =>
                (markProcessed s message_id,
                 Effect.send chat_id quick :: ackIf receipt)
              | none =>
                let g := get_openai_response env.llm s chat_id message_text
                (markProcessed g.2.1 message_id,
                 g.2.2 ++ Effect.send chat_id g.1 :: ackIf receipt)

/-! ## Derived observations about effect traces -/

/-- Is the effect an acknowledgement (`delete_notification`)? -/
def isDeleteE : Effect → Bool
  | .deleteNotif _ => true
  | _ => false

/-- Is the effect an outbound send (including the sends inside
`handle_clients_command`, abstracted as `listClients`)? -/
def isSendLike : Effect → Bool
  | .send _ _ => true
  | .listClients _ => true
  | _ => false

/-- Is the effect a lead-record persistence? -/
def isSaveE : Effect → Bool
  | .saveClient _ _ => true
  | _ => false

/-- Number of acknowledgement calls in a trace. -/
def countAcks (l : List Effect) : Nat := l.countP isDeleteE

/-- Holds when no outbound send occurs after an acknowledgement in the trace. -/
def acksAfterSends : List Effect → Bool
  | [] => true
  | e :: rest =>
    if isDeleteE e then rest.all (fun x => !(isSendLike x))
    else acksAfterSends rest

/-- Modelled from the claim's wording (the spec side of the comparison for the
greeting rule): the text is trimmed, lower-cased, one trailing exclamation
mark is stripped, and the result must equal a greeting phrase exactly. -/
def spec_greeting_match (text : String) : Bool :=
  let t := pyStrip (pyLower text)
  let t1 := match t.toList.reverse with
    | '!' :: rest => String.mk rest.reverse
    | _ => t
  hello_set.contains t1

/-- The four-labelled-line input of the lead round-trip property. -/
def c2_text : String := "Имя: Ann\nКомпания: Acme\nТелефон: 123\nЗадача: bot"

/-- One generative exchange whose model call fails, as state transformer. -/
def c3_step (s : BotState) : BotState :=
  (get_openai_response none s "c" "m").2.1

/-- `k` consecutive failed generative exchanges starting from the empty state. -/
def c3_iter : Nat → BotState
  | 0 => ⟨[], [], []⟩
  | k + 1 => c3_step (c3_iter k)

/-! ## Helper lemmas -/

theorem lookupAssoc_setAssoc_self {α : Type} (l : List (String × α)) (k : String) (v : α) :
    lookupAssoc (setAssoc l k v) k = some v := by
  induction l with
  | nil => simp [setAssoc, lookupAssoc]
  | cons p rest ih =>
    by_cases h : p.1 == k
    · simp [setAssoc, h, lookupAssoc]
    · simp only [setAssoc, h, if_false, Bool.false_eq_true, ite_false]
      simpa [lookupAssoc, List.find?_cons, h] using ih

theorem lastN_length {α : Type} (n : Nat) (l : List α) :
    (lastN n l).length = min n l.length := by
  simp [lastN]
  omega

theorem openai_effects (llm : Option String) (s : BotState) (c m : String) :
    (get_openai_response llm s c m).2.2 = [Effect.llmCall c] := by
  cases llm <;> rfl

theorem openai_processed (llm : Option String) (s : BotState) (c m : String) :
    (get_openai_response llm s c m).2.1.processed_messages = s.processed_messages := by
  cases llm <;> rfl

theorem subset_addToSet (m : String) (l : List String) : l ⊆ addToSet m l := by
  unfold addToSet
  split
  · exact fun a ha => ha
  · exact fun a ha => List.mem_cons_of_mem m ha

theorem markProcessed_mono (s : BotState) (mid : Option String) :
    s.processed_messages ⊆ (markProcessed s mid).processed_messages := by
  unfold markProcessed
  split
  · exact subset_addToSet _ _
  · exact fun a ha => ha

theorem acks_ackIf (receipt : Option Int) : acksAfterSends (ackIf receipt) = true := by
  unfold ackIf
  split <;> rfl

theorem acks_cons (e : Effect) (l : List Effect) (h : isDeleteE e = false) :
    acksAfterSends (e :: l) = acksAfterSends l := by
  simp [acksAfterSends, h]

theorem countAcks_ackIf (r : Int) (h : r ≠ 0) : countAcks (ackIf (some r)) = 1 := by
  simp [ackIf, optIntTruthy, h, countAcks, List.countP_cons, isDeleteE]

theorem countAcks_cons (e : Effect) (l : List Effect) (h : isDeleteE e = false) :
    countAcks (e :: l) = countAcks l := by
  simp [countAcks, List.countP_cons, h]

/-! ## Claim theorems -/

/-- C7: when the generative collaborator fails, `get_openai_response` returns
the fixed apologetic fallback text, and the chat's stored history becomes the
previous history plus only the user turn — no assistant turn is added. -/
theorem c7_generative_failure_fallback (s : BotState) (chat_id user_message : String) :
    (get_openai_response none s chat_id user_message).1 = fallback_text
    ∧ lookupAssoc (get_openai_response none s chat_id user_message).2.1.history chat_id
      = some (((lookupAssoc s.history chat_id).getD [])
          ++ [⟨"user", user_message⟩]) := by
  refine ⟨rfl, ?_⟩
  simp [get_openai_response, lookupAssoc_setAssoc_self]

/-- C10: with no cached last reply for the chat, a candidate that trims to the
empty string is suppressed by `send_unique`: it returns `true`, performs no
outbound send and leaves the state (including the cache) unchanged, because
`dict.get(chat_id, "")` treats the missing entry as the empty string. -/
theorem c10_empty_candidate_suppressed (ok : Bool) (s : BotState) (chat_id message : String)
    (hcache : lookupAssoc s.last_reply chat_id = none)
    (hempty : pyStrip message = "") :
    send_unique ok s chat_id message = (true, s, []) := by
  have h0 : pyStrip ("" : String) = "" := rfl
  simp [send_unique, hcache, hempty, h0]

/-- C10 witness: the fresh state with the whitespace-only candidate. -/
theorem c10_witness :
    lookupAssoc (⟨[], [], []⟩ : BotState).last_reply "c" = none
    ∧ pyStrip ("   " : String) = ""
    ∧ send_unique true ⟨[], [], []⟩ "c" "   " = (true, ⟨[], [], []⟩, []) :=
  ⟨by decide, by decide,
   c10_empty_candidate_suppressed true ⟨[], [], []⟩ "c" "   " (by decide) (by decide)⟩

/-- C5: `send_unique` suppresses the physical send and reports success exactly
when the trimmed candidate equals the trimmed previously sent reply; a real
successful send updates the cache to the new value, so sending the same text
twice in a row performs one physical send, and the second call is suppressed
while still returning `true`. -/
theorem c5_anti_duplicate (ok ok2 : Bool) (s : BotState) (chat_id T prev : String)
    (hprev : lookupAssoc s.last_reply chat_id = some prev) :
    (((send_unique ok s chat_id T).2.2 = []) ↔ pyStrip T = pyStrip prev)
    ∧ (pyStrip T = pyStrip prev → send_unique ok s chat_id T = (true, s, []))
    ∧ (pyStrip T ≠ pyStrip prev →
        (send_unique true s chat_id T).2.2 = [Effect.send chat_id T]
        ∧ lookupAssoc (send_unique true s chat_id T).2.1.last_reply chat_id = some T
        ∧ send_unique ok2 (send_unique true s chat_id T).2.1 chat_id T
            = (true, (send_unique true s chat_id T).2.1, [])) := by
  have hs : ((lookupAssoc s.last_reply chat_id).getD "") = prev := by rw [hprev]; rfl
  by_cases h : pyStrip prev = pyStrip T
  · refine ⟨?_, fun _ => by simp [send_unique, hs, h], fun hTp => absurd h.symm hTp⟩
    have hrun0 : send_unique ok s chat_id T = (true, s, []) := by
      simp [send_unique, hs, h]
    rw [hrun0]
    simpa using h.symm
  · have hrun : send_unique true s chat_id T
        = (true, { s with last_reply := setAssoc s.last_reply chat_id T },
           [Effect.send chat_id T]) := by
      simp [send_unique, hs, h]
    refine ⟨?_, fun hTp => absurd hTp.symm h, fun _ => ⟨by rw [hrun], ?_, ?_⟩⟩
    · simp [send_unique, hs, h]
      exact fun hh => h hh.symm
    · rw [hrun]
      simp [lookupAssoc_setAssoc_self]
    · rw [hrun]
      simp [send_unique, lookupAssoc_setAssoc_self]

/-- C5 witness: a cached reply `"old"`, then two sends of `"hi"` in a row;
the second is suppressed with result `true` and no state change. -/
theorem c5_witness :
    lookupAssoc (⟨[], [], [("c", "old")]⟩ : BotState).last_reply "c" = some "old"
    ∧ send_unique false (send_unique true ⟨[], [], [("c", "old")]⟩ "c" "hi").2.1 "c" "hi"
        = (true, (send_unique true ⟨[], [], [("c", "old")]⟩ "c" "hi").2.1, []) :=
  ⟨by decide,
   ((c5_anti_duplicate true false ⟨[], [], [("c", "old")]⟩ "c" "hi" "old"
       (by decide)).2.2 (by decide)).2.2⟩

/-- C6 counterexample: `"привет!!"` is routed to the fixed greeting reply by
`route_intent` (Python `t.replace("!", "")` removes every exclamation mark),
but the claim's matching rule — trim, lower-case, strip one trailing
exclamation mark, compare exactly — does not accept it, so the claimed
if-and-only-if characterisation is false at this input. -/
theorem c6_counterexample :
    route_intent "привет!!" = some greeting_reply
    ∧ spec_greeting_match "привет!!" = false := by
  exact ⟨by decide, by decide⟩

/-- C6 (amended): `route_intent` returns the fixed greeting reply iff the
text, after lower-casing and trimming, is a greeting phrase either exactly or
after removing all exclamation marks; in particular `"привет"` and
`"привет!"` yield the greeting reply, and processing a `"привет"` message
produces only the greeting send and the acknowledgement — no generative
(`llmCall`) effect. -/
theorem c6_greeting_route :
    (∀ text : String,
        route_intent text = some greeting_reply
          ↔ (hello_set.contains (pyStrip (pyLower text)) = true
              ∨ hello_set.contains (removeBangs (pyStrip (pyLower text))) = true))
    ∧ route_intent "привет" = some greeting_reply
    ∧ route_intent "привет!" = some greeting_reply
    ∧ (process_message ⟨true, true, none⟩ ⟨[], [], []⟩
        (some ⟨some 1, some ⟨"incomingMessageReceived",
          some ⟨some ⟨"привет"⟩, some "g1"⟩, some ⟨"chatG", "7000"⟩⟩⟩)).2
      = [Effect.send "chatG" greeting_reply, Effect.deleteNotif 1] := by
  refine ⟨?_, by decide, by decide, by decide⟩
  intro text
  simp only [route_intent]
  by_cases h : (hello_set.contains (pyStrip (pyLower text))
      || hello_set.contains (removeBangs (pyStrip (pyLower text)))) = true
  · simp only [h, if_true]
    simpa [Bool.or_eq_true] using h
  · have hr : ¬(hello_set.contains (pyStrip (pyLower text)) = true
        ∨ hello_set.contains (removeBangs (pyStrip (pyLower text))) = true) := by
      intro hor
      apply h
      rw [Bool.or_eq_true]
      exact hor
    simp only [h, if_false]
    refine iff_of_false ?_ hr
    intro he
    by_cases hb : (booking_keywords.any fun kw => containsSub kw (pyStrip (pyLower text))) = true
    · rw [if_pos hb] at he
      exact absurd (Option.some.inj he) (by decide)
    · rw [if_neg hb] at he
      exact Option.noConfusion he

/-- C2 (divergence evidence): `extract_client_info` has no `задача:` label, so
the four-line round-trip input leaves `bot_type` unset, and processing the
message sends the consolidated follow-up naming `Задача` and persists
nothing — instead of saving a complete record and sending the confirmation.
The code's own prompts (`route_intent`'s intake form and the follow-up
format) instruct exactly the `Задача: ...` shape that the extractor cannot
parse. -/
theorem c2_task_label_never_extracted :
    extract_client_info c2_text
      = ⟨some "Ann", some "Acme", some "123", none⟩
    ∧ (process_message ⟨true, true, none⟩ ⟨[], [], []⟩
        (some ⟨some 3, some ⟨"incomingMessageReceived",
          some ⟨some ⟨c2_text⟩, some "m1"⟩, some ⟨"chatA", "70001"⟩⟩⟩)).2
      = [Effect.send "chatA" (ask_text ["Задача"]), Effect.deleteNotif 3] := by
  exact ⟨by decide, by decide⟩

/-- C3 counterexample: 25 generative exchanges whose model call fails append
25 turns to the chat's history with no truncation anywhere, so after more
than 24 appended turns the stored length is 25, not 24. -/
theorem c3_counterexample :
    ((lookupAssoc (c3_iter 25).history "c").getD []).length = 25
    ∧ ¬((lookupAssoc (c3_iter 25).history "c").getD []).length = 24 := by
  exact ⟨by decide, by decide⟩

/-- C3 (amended): truncation to the most recent 24 turns happens only after a
successful generative exchange: the stored history then equals the last 24 of
the previous history plus the user and assistant turns (a suffix, so the most
recent turns in original insertion order, of length `min 24 (previous + 2)` —
exactly 24 once more than 24 turns have accumulated); a failed exchange
appends the user turn with no truncation. -/
theorem c3_history_truncation (raw : String) (s : BotState) (chat_id m : String) :
    lookupAssoc (get_openai_response (some raw) s chat_id m).2.1.history chat_id
      = some (lastN 24 ((((lookupAssoc s.history chat_id).getD [])
          ++ [Msg.mk "user" m]) ++ [Msg.mk "assistant" (pyStrip raw)]))
    ∧ (lastN 24 ((((lookupAssoc s.history chat_id).getD [])
          ++ [Msg.mk "user" m]) ++ [Msg.mk "assistant" (pyStrip raw)])).length
      = min 24 (((lookupAssoc s.history chat_id).getD []).length + 2)
    ∧ List.take (((((lookupAssoc s.history chat_id).getD [])
          ++ [Msg.mk "user" m]) ++ [Msg.mk "assistant" (pyStrip raw)]).length - 24)
        ((((lookupAssoc s.history chat_id).getD [])
          ++ [Msg.mk "user" m]) ++ [Msg.mk "assistant" (pyStrip raw)])
        ++ lastN 24 ((((lookupAssoc s.history chat_id).getD [])
          ++ [Msg.mk "user" m]) ++ [Msg.mk "assistant" (pyStrip raw)])
      = (((lookupAssoc s.history chat_id).getD [])
          ++ [Msg.mk "user" m]) ++ [Msg.mk "assistant" (pyStrip raw)]
    ∧ lookupAssoc (get_openai_response none s chat_id m).2.1.history chat_id
      = some (((lookupAssoc s.history chat_id).getD []) ++ [Msg.mk "user" m]) := by
  refine ⟨?_, ?_, ?_, ?_⟩
  · simp [get_openai_response, lookupAssoc_setAssoc_self]
  · simp [lastN_length, List.length_append]
  · exact List.take_append_drop _ _
  · simp [get_openai_response, lookupAssoc_setAssoc_self]

/-- C9: in every processing run, no outbound send ever occurs after an
acknowledgement in the effect trace — the acknowledgement happens after the
reply send attempt (or after a no-op branch), never before a send. -/
theorem c9_ack_after_send (env : Env) (s : BotState) (notif : Option Notification) :
    acksAfterSends (process_message env s notif).2 = true := by
  cases notif with
  | none => rfl
  | some n =>
    obtain ⟨receipt, nbody⟩ := n
    cases nbody with
    | none => rfl
    | some body =>
      simp only [process_message]
      repeat' split
      all_goals
        simp [acks_cons, acks_ackIf, isDeleteE, openai_effects, acksAfterSends]

/-- Monotonicity of the processed-message set: no branch of `process_message`
ever removes an identifier. -/
theorem processed_mono (env : Env) (s : BotState) (notif : Option Notification) :
    s.processed_messages ⊆ (process_message env s notif).1.processed_messages := by
  cases notif with
  | none => exact fun a ha => ha
  | some n =>
    obtain ⟨receipt, nbody⟩ := n
    cases nbody with
    | none => exact fun a ha => ha
    | some body =>
      simp only [process_message]
      repeat' split
      all_goals first
        | exact fun a ha => ha
        | exact markProcessed_mono _ _
        | exact fun a ha => markProcessed_mono _ _ (by exact ha)
        | exact fun a ha => markProcessed_mono _ _ (by
            rw [openai_processed]
            exact ha)

/-- The duplicate-suppression branch: an already-processed message identifier
leads straight to acknowledgement with no other effect and no state change. -/
theorem pm_dedup (env : Env) (s : BotState) (receipt : Option Int)
    (md : MessageData) (tmd : TextMessageData) (sd : SenderData) (m : String)
    (htmd : md.textMessageData = some tmd)
    (htext : tmd.textMessage ≠ "")
    (hchat : sd.chatId ≠ "")
    (hid : md.idMessage = some m)
    (hm : m ≠ "")
    (hmem : s.processed_messages.contains m = true) :
    process_message env s
        (some ⟨receipt, some ⟨"incomingMessageReceived", some md, some sd⟩⟩)
      = (s, ackIf receipt) := by
  simp [process_message, htmd, htext, hchat, hid, hm, optStrTruthy]
  intro h2
  exact absurd (by simpa using hmem) h2

/-- C4: (1) the Processed-Message Set only grows — an identifier, once added,
is never removed by any processing branch; (2) a well-formed text message
whose identifier is already in the set produces no send, no save, no model
call and no state mutation: only the single acknowledgement. -/
theorem c4_dedup_and_monotone :
    (∀ (env : Env) (s : BotState) (notif : Option Notification),
        s.processed_messages ⊆ (process_message env s notif).1.processed_messages)
    ∧ (∀ (env : Env) (s : BotState) (r : Int) (md : MessageData)
        (tmd : TextMessageData) (sd : SenderData) (m : String),
        md.textMessageData = some tmd →
        tmd.textMessage ≠ "" →
        sd.chatId ≠ "" →
        md.idMessage = some m →
        m ≠ "" →
        s.processed_messages.contains m = true →
        r ≠ 0 →
        process_message env s
            (some ⟨some r, some ⟨"incomingMessageReceived", some md, some sd⟩⟩)
          = (s, [Effect.deleteNotif r])) := by
  refine ⟨processed_mono, ?_⟩
  intro env s r md tmd sd m htmd htext hchat hid hm hmem hr
  rw [pm_dedup env s (some r) md tmd sd m htmd htext hchat hid hm hmem]
  simp [ackIf, optIntTruthy, hr]

/-- C4 witness: identifier `"m1"` already processed; the second delivery
yields exactly the acknowledgement and an unchanged state. -/
theorem c4_witness :
    (⟨["m1"], [], []⟩ : BotState).processed_messages.contains "m1" = true
    ∧ process_message ⟨true, true, none⟩ ⟨["m1"], [], []⟩
        (some ⟨some 7, some ⟨"incomingMessageReceived",
          some ⟨some ⟨"hello"⟩, some "m1"⟩, some ⟨"chat1", "7777"⟩⟩⟩)
      = (⟨["m1"], [], []⟩, [Effect.deleteNotif 7]) :=
  ⟨by decide,
   c4_dedup_and_monotone.2 ⟨true, true, none⟩ ⟨["m1"], [], []⟩ 7
     ⟨some ⟨"hello"⟩, some "m1"⟩ ⟨"hello"⟩ ⟨"chat1", "7777"⟩ "m1"
     rfl (by decide) (by decide) rfl (by decide) (by decide) (by decide)⟩

/-- C1 counterexample: a notification with a receipt but no payload body, and
a well-formed text message without a receipt identifier, are both processed
with zero acknowledgement calls — not every code path ends in exactly one. -/
theorem c1_counterexample :
    countAcks (process_message ⟨true, true, none⟩ ⟨[], [], []⟩
        (some ⟨some 5, none⟩)).2 ≠ 1
    ∧ countAcks (process_message ⟨true, true, none⟩ ⟨[], [], []⟩
        (some ⟨none, some ⟨"incomingMessageReceived",
          some ⟨some ⟨"hi"⟩, some "x1"⟩, some ⟨"cX", "700"⟩⟩⟩)).2 ≠ 1 := by
  exact ⟨by decide, by decide⟩

/-- C1 (amended): `process_message` is a total function (every collaborator
call catches its own errors, so nothing escapes), and for every notification
that carries a payload body and a truthy receipt identifier, every code path
performs exactly one acknowledgement call. -/
theorem c1_single_ack (env : Env) (s : BotState) (body : NotifBody) (r : Int)
    (hr : r ≠ 0) :
    countAcks (process_message env s (some ⟨some r, some body⟩)).2 = 1 := by
  have hack : countAcks (ackIf (some r)) = 1 := countAcks_ackIf r hr
  simp only [process_message]
  repeat' split
  all_goals simp [countAcks_cons, isDeleteE, openai_effects, hack]

/-- C1 witness: a concrete well-formed notification with receipt 5 is
acknowledged exactly once. -/
theorem c1_witness :
    (5 : Int) ≠ 0
    ∧ countAcks (process_message ⟨true, true, none⟩ ⟨[], [], []⟩
        (some ⟨some 5, some ⟨"incomingMessageReceived",
          some ⟨some ⟨"hi"⟩, some "w1"⟩, some ⟨"cW", "701"⟩⟩⟩)).2 = 1 :=
  ⟨by decide,
   c1_single_ack ⟨true, true, none⟩ ⟨[], [], []⟩
     ⟨"incomingMessageReceived", some ⟨some ⟨"hi"⟩, some "w1"⟩, some ⟨"cW", "701"⟩⟩
     5 (by decide)⟩

/-- The slot-filling branch with missing fields: one consolidated follow-up
send naming exactly the missing fields, then the acknowledgement; nothing is
persisted. -/
theorem pm_slot (env : Env) (s : BotState) (receipt : Option Int)
    (md : MessageData) (tmd : TextMessageData) (sd : SenderData)
    (htmd : md.textMessageData = some tmd)
    (htext : tmd.textMessage ≠ "")
    (hchat : sd.chatId ≠ "")
    (hdedup : (optStrTruthy md.idMessage
        && s.processed_messages.contains (md.idMessage.getD "")) = false)
    (hcl : pyStartsWith (pyStrip tmd.textMessage) "/clients" = false)
    (hslot : slot_trigger tmd.textMessage = true)
    (hneed : needList (clientInfoWithTask tmd.textMessage) ≠ []) :
    process_message env s
        (some ⟨receipt, some ⟨"incomingMessageReceived", some md, some sd⟩⟩)
      = (markProcessed s md.idMessage,
         Effect.send sd.chatId (ask_text (needList (clientInfoWithTask tmd.textMessage)))
           :: ackIf receipt) := by
  simp [process_message, htmd, htext, hchat, hcl, hslot, hneed]
  intro h1 h2
  rw [h1] at hdedup
  simp at hdedup
  exact hdedup h2

/-- C8: whenever the slot-filling branch runs and extraction leaves required
fields missing, the whole effect trace is one follow-up send whose text names
exactly the missing fields (in the fixed format re-showing the four lines)
followed by the acknowledgement — in particular no record is persisted; and
for the concrete input supplying name, company and task but no phone, the
missing-field list is exactly `["Телефон"]`. -/
theorem c8_missing_fields_followup :
    (∀ (env : Env) (s : BotState) (r : Int) (md : MessageData)
        (tmd : TextMessageData) (sd : SenderData),
        md.textMessageData = some tmd →
        tmd.textMessage ≠ "" →
        sd.chatId ≠ "" →
        (optStrTruthy md.idMessage
          && s.processed_messages.contains (md.idMessage.getD "")) = false →
        pyStartsWith (pyStrip tmd.textMessage) "/clients" = false →
        slot_trigger tmd.textMessage = true →
        needList (clientInfoWithTask tmd.textMessage) ≠ [] →
        r ≠ 0 →
        (process_message env s (some ⟨some r,
            some ⟨"incomingMessageReceived", some md, some sd⟩⟩)).2
          = [Effect.send sd.chatId
              (ask_text (needList (clientInfoWithTask tmd.textMessage))),
             Effect.deleteNotif r])
    ∧ needList (clientInfoWithTask "Имя: Ann\nКомпания: Acme\nБот для: доставки")
      = ["Телефон"] := by
  constructor
  · intro env s r md tmd sd htmd htext hchat hdedup hcl hslot hneed hr
    rw [pm_slot env s (some r) md tmd sd htmd htext hchat hdedup hcl hslot hneed]
    simp [ackIf, optIntTruthy, hr]
  · decide

/-- C8 witness: the concrete message missing only the phone triggers the
follow-up naming `Телефон` and persists nothing. -/
theorem c8_witness :
    slot_trigger "Имя: Ann\nКомпания: Acme\nБот для: доставки" = true
    ∧ needList (clientInfoWithTask "Имя: Ann\nКомпания: Acme\nБот для: доставки") ≠ []
    ∧ (process_message ⟨true, true, none⟩ ⟨[], [], []⟩ (some ⟨some 9,
        some ⟨"incomingMessageReceived",
          some ⟨some ⟨"Имя: Ann\nКомпания: Acme\nБот для: доставки"⟩, some "m8"⟩,
          some ⟨"chat8", "7008"⟩⟩⟩)).2
      = [Effect.send "chat8"
          (ask_text (needList (clientInfoWithTask "Имя: Ann\nКомпания: Acme\nБот для: доставки"))),
         Effect.deleteNotif 9] :=
  ⟨by decide, by decide,
   c8_missing_fields_followup.1 ⟨true, true, none⟩ ⟨[], [], []⟩ 9
     ⟨some ⟨"Имя: Ann\nКомпания: Acme\nБот для: доставки"⟩, some "m8"⟩
     ⟨"Имя: Ann\nКомпания: Acme\nБот для: доставки"⟩ ⟨"chat8", "7008"⟩
     rfl (by decide) (by decide) (by decide) (by decide) (by decide) (by decide)
     (by decide)⟩

end WABot
